import Mathlib

/-!
Verification of the UFO flappy-style arcade game simulation core.

This file gives a shallow embedding of the game's per-frame simulation
(the `tick` closure of `GameCanvas`: difficulty model, obstacle pipeline,
physics integration, collision detection, scoring, countdown handling)
and of the shell component (`GameShell`: run statistics and best-score
persistence), together with theorems settling the specification claims.

Host-environment values that the browser supplies are passed explicitly:
`Math.random()` draws come from a stream `rands : Nat → ℚ` together with a
cursor index, the float `Math.pow 0.25 delta` used by the countdown easing
is an argument `pow25`, and the durable key/value storage slot for the key
`ufo-flappy-best` is an `Option String`.
-/

namespace UFO

/-- Gravity constant (px/s^2) from GameCanvas. -/
def GRAVITY : ℚ := 1500

/-- Upward acceleration while thrusting, from GameCanvas. -/
def THRUST_ACCEL : ℚ := -2600

/-- Radius of the player craft's collision circle. -/
def UFO_RADIUS : ℚ := 22

/-- Obstacle width constant. -/
def OBSTACLE_WIDTH : ℚ := 80

/-- Starting (widest) obstacle gap. -/
def OBSTACLE_BASE_GAP : ℚ := 220

/-- Minimum gap at maximal difficulty. -/
def OBSTACLE_MIN_GAP : ℚ := 140

/-- Horizontal spacing between consecutive obstacles. -/
def OBSTACLE_SPACING : ℚ := 260

/-- Gentle starting scroll speed. -/
def BASE_SPEED : ℚ := 190

/-- Maximal scroll speed at full difficulty. -/
def MAX_SPEED : ℚ := 370

/-- Threshold (1000/240 milliseconds) beyond which the raw delta is clamped. -/
def MAX_FPS : ℚ := 1000 / 240

/-- Distance at which difficulty reaches its maximum. -/
def DIFFICULTY_MAX_DISTANCE : ℚ := 4500

/-- Countdown duration in seconds. -/
def COUNTDOWN_DURATION : ℚ := 3

/-- An obstacle as stored in the GameCanvas state. -/
structure Obstacle where
  id : Nat
  x : ℚ
  gapY : ℚ
  gapHeight : ℚ
  width : ℚ
  passed : Bool
deriving Repr, DecidableEq

/-- Difficulty parameters derived from distance. -/
structure DiffParams where
  speed : ℚ
  gap : ℚ
deriving Repr, DecidableEq

/-- Difficulty scaling factor in [0,1] from distance (getDifficultyFactor). -/
def getDifficultyFactor (distance : ℚ) : ℚ :=
  if distance ≤ 0 then 0
  else if DIFFICULTY_MAX_DISTANCE ≤ distance then 1
  else distance / DIFFICULTY_MAX_DISTANCE

/-- Current obstacle gap and speed from difficulty (getCurrentParams). -/
def getCurrentParams (distance : ℚ) : DiffParams :=
  let t := getDifficultyFactor distance
  let ease := t * t
  { speed := BASE_SPEED + (MAX_SPEED - BASE_SPEED) * ease
    gap := OBSTACLE_BASE_GAP + (OBSTACLE_MIN_GAP - OBSTACLE_BASE_GAP) * ease }

/-- One obstacle spawn (spawnObstacle); `r` is the `Math.random()` draw used. -/
def spawnObstacle (height r : ℚ) (oid : Nat) (minX gapHeight : ℚ) : Obstacle :=
  let centerMargin : ℚ := 80
  let usableHeight := height - 2 * centerMargin - gapHeight
  let center := centerMargin + (if 0 < usableHeight then r * usableHeight else 0)
  { id := oid
    x := minX
    gapY := center + gapHeight / 2
    gapHeight := gapHeight
    width := OBSTACLE_WIDTH
    passed := false }

/-- Run statistics kept by GameShell. -/
structure GameStats where
  score : Int
  bestScore : Int
  distance : ℚ
  runs : Int
deriving Repr, DecidableEq

/-- GameShell together with the `ufo-flappy-best` slot of localStorage. -/
structure Shell where
  stats : GameStats
  storage : Option String
deriving Repr, DecidableEq

/-- A `Partial GameStats` patch as passed to updateStats. -/
structure StatsPatch where
  score : Option Int := none
  bestScore : Option Int := none
  distance : Option ℚ := none
  runs : Option Int := none
deriving Repr

/-- Spread `{ ...prev, ...patch }` of a partial patch over the stats. -/
def applyPatch (prev : GameStats) (p : StatsPatch) : GameStats :=
  { score := p.score.getD prev.score
    bestScore := p.bestScore.getD prev.bestScore
    distance := p.distance.getD prev.distance
    runs := p.runs.getD prev.runs }

/-- updateStats: applies the patch and writes localStorage only when the
patched bestScore differs from the previous one. -/
def updateStats (sh : Shell) (p : StatsPatch) : Shell :=
  let next := applyPatch sh.stats p
  { stats := next
    storage :=
      if next.bestScore ≠ sh.stats.bestScore then some (toString next.bestScore)
      else sh.storage }

/-- handleGameOver: records the terminal score/distance and raises the
in-memory bestScore, via a direct setStats call (no localStorage access). -/
def handleGameOver (sh : Shell) (score : Int) (distance : ℚ) : Shell :=
  { sh with
    stats :=
      { sh.stats with
        score := score
        distance := distance
        bestScore := if sh.stats.bestScore < score then score else sh.stats.bestScore } }

/-- handleStart: enters the running phase and resets the per-run stats,
incrementing the run counter, through updateStats. -/
def handleStart (sh : Shell) : Shell :=
  updateStats sh { score := some 0, distance := some 0, runs := some (sh.stats.runs + 1) }

/-- handleRestart: resets the per-run stats through updateStats. -/
def handleRestart (sh : Shell) : Shell :=
  updateStats sh { score := some 0, distance := some 0 }

/-- Value of one digit character under the given radix (10 or 16), as used
by JavaScript Number.parseInt. -/
def digitVal (base : Nat) (c : Char) : Option Nat :=
  if '0' ≤ c ∧ c ≤ '9' then some (c.toNat - '0'.toNat)
  else if base = 16 ∧ 'a' ≤ c ∧ c ≤ 'f' then some (c.toNat - 'a'.toNat + 10)
  else if base = 16 ∧ 'A' ≤ c ∧ c ≤ 'F' then some (c.toNat - 'A'.toNat + 10)
  else none

/-- Accumulate the longest leading run of valid digits. -/
def parseDigitsAux (base : Nat) : List Char → Nat → Nat
  | [], acc => acc
  | c :: rest, acc =>
    match digitVal base c with
    | some d => parseDigitsAux base rest (acc * base + d)
    | none => acc

/-- JavaScript `Number.parseInt(s)` with the radix argument omitted:
skip leading whitespace, read an optional sign, honour a `0x`/`0X` hex
prefix, then take the longest leading digit run; `none` models NaN. -/
def parseIntJS (s : String) : Option Int :=
  let cs := s.data.dropWhile Char.isWhitespace
  let sign : Int := match cs with | '-' :: _ => -1 | _ => 1
  let cs2 := match cs with
    | '-' :: r => r
    | '+' :: r => r
    | _ => cs
  let bd : Nat × List Char := match cs2 with
    | '0' :: 'x' :: r => (16, r)
    | '0' :: 'X' :: r => (16, r)
    | _ => (10, cs2)
  match bd.2 with
  | [] => none
  | c :: _ =>
    match digitVal bd.1 c with
    | none => none
    | some _ => some (sign * (parseDigitsAux bd.1 bd.2 0 : Nat))

/-- createInitialStats: zero run stats, with bestScore read back from the
stored `ufo-flappy-best` value via `stored ? Number.parseInt(stored) || 0 : 0`
(`none` models a missing key; the empty string is falsy in JavaScript, and
`x || 0` collapses both NaN and 0 to 0). -/
def createInitialStats (stored : Option String) : GameStats :=
  let best : Int :=
    match stored with
    | none => 0
    | some s =>
      if s = "" then 0
      else
        match parseIntJS s with
        | none => 0
        | some n => if n = 0 then 0 else n
  { score := 0, bestScore := best, distance := 0, runs := 0 }

/-- Required obstacle count, `Math.ceil(960 / OBSTACLE_SPACING) + 3`. -/
def needed : Nat := (Int.ceil ((960 : ℚ) / OBSTACLE_SPACING)).toNat + 3

/-- `Math.max(...l.map(o => o.x))` over a nonempty list (the code guards
the empty case away before calling it). -/
def maxX : List Obstacle → ℚ
  | [] => 0
  | o :: rest => rest.foldl (fun m p => max m p.x) o.x

/-- Spawn x position for the next obstacle: fixed offset 480 when the
active list is empty, otherwise the maximal x plus the spacing. -/
def baseOf (active : List Obstacle) : ℚ :=
  if active.length = 0 then 480 else maxX active + OBSTACLE_SPACING

/-- The `while (active.length < needed)` pipeline loop of the tick; `fuel`
bounds the iteration count (the loop adds one obstacle per iteration, so
`needed` fuel always suffices). Returns the list, the next obstacle id and
the next random-stream cursor. -/
def refillLoop (height gap : ℚ) (rands : Nat → ℚ) :
    Nat → Nat → Nat → List Obstacle → List Obstacle × Nat × Nat
  | 0, ridx, nextId, active => (active, nextId, ridx)
  | fuel + 1, ridx, nextId, active =>
    if active.length < needed then
      refillLoop height gap rands fuel (ridx + 1) (nextId + 1)
        (active ++ [spawnObstacle height (rands ridx) nextId (baseOf active) gap])
    else (active, nextId, ridx)

/-- Cull-and-refill step of the obstacle pipeline: filter obstacles with
`x + width > -60`, then run the spawn loop. -/
def refill (height gap : ℚ) (rands : Nat → ℚ) (ridx nextId : Nat)
    (obs : List Obstacle) : List Obstacle × Nat × Nat :=
  refillLoop height gap rands needed ridx nextId
    (obs.filter fun o => -60 < o.x + o.width)

/-- The spawn sequence produced by the refill loop: `k` obstacles at
`base, base + spacing, base + 2·spacing, …` with sequential ids and
consecutive random draws. -/
def spawnChain (height gap : ℚ) (rands : Nat → ℚ) :
    Nat → Nat → ℚ → Nat → List Obstacle
  | _, _, _, 0 => []
  | ridx, nextId, base, k + 1 =>
    spawnObstacle height (rands ridx) nextId base gap ::
      spawnChain height gap rands (ridx + 1) (nextId + 1) (base + OBSTACLE_SPACING) k

/-- Scoring pass of the tick: each not-yet-passed obstacle whose trailing
edge `x + width` is left of `960 / 2 - 30` is marked passed and adds 1 to
the score. -/
def scoreStep : List Obstacle → Nat → List Obstacle × Nat
  | [], score => ([], score)
  | o :: rest, score =>
    if o.passed = false ∧ o.x + o.width < 960 / 2 - 30 then
      let r := scoreStep rest (score + 1)
      ({ o with passed := true } :: r.1, r.2)
    else
      let r := scoreStep rest score
      (o :: r.1, r.2)

/-- Floor/ceiling clamp of the integrated position: floor test first, then
the ceiling test on the possibly clamped value; the flag records a bound
hit. -/
def boundClamp (height y : ℚ) : ℚ × Bool :=
  let fl := height - 40
  let ce : ℚ := 40
  let p1 : ℚ × Bool := if fl ≤ y + UFO_RADIUS then (fl - UFO_RADIUS, true) else (y, false)
  if p1.1 - UFO_RADIUS ≤ ce then (ce + UFO_RADIUS, true) else p1

/-- Fixed horizontal position of the craft, `960 / 2 - 80`: the collision
circle's center x. -/
def ufoX : ℚ := 960 / 2 - 80

/-- Circle-versus-rectangle test: closest point of the rectangle to the
circle center, compared against the squared radius. -/
def rectCircleHit (cx cy r rx ry rw rh : ℚ) : Bool :=
  let closestX := max rx (min cx (rx + rw))
  let closestY := max ry (min cy (ry + rh))
  let dx := cx - closestX
  let dy := cy - closestY
  decide (dx * dx + dy * dy < r * r)

/-- Collision of the craft circle at height `y` with one obstacle's two
rectangles (top segment and bottom segment). -/
def obstacleHit (height y : ℚ) (o : Obstacle) : Bool :=
  let topHeight := o.gapY - o.gapHeight / 2
  let bottomY := o.gapY + o.gapHeight / 2
  rectCircleHit ufoX y UFO_RADIUS o.x 0 o.width topHeight ||
    rectCircleHit ufoX y UFO_RADIUS o.x bottomY o.width (height - bottomY)

/-- Collision of the craft circle with any obstacle in the list. -/
def collides (height y : ℚ) (obs : List Obstacle) : Bool :=
  obs.any (obstacleHit height y)

/-- Full mutable state of the GameCanvas simulation that the tick reads
and writes (presentation-only parallax state is omitted). -/
structure GameState where
  ufoY : ℚ
  velocity : ℚ
  obstacles : List Obstacle
  score : Nat
  distance : ℚ
  countdown : Option ℚ
  countdownStart : Option ℚ
  lastTime : Option ℚ
  nextObstacleId : Nat
deriving Repr, DecidableEq

/-- Result of one tick: the committed state, the game-over event carrying
(score, distance) when a hit ended the run, and the random-stream cursor. -/
structure TickResult where
  state : GameState
  gameOver : Option (Nat × ℚ)
  ridx : Nat
deriving Repr, DecidableEq

/-- Active-play portion of the tick (after the countdown has ended):
physics integration with clamp, obstacle scroll, pipeline refill, scoring,
distance accrual, collision on the clamped position (skipped when a bound
was hit), then either the game-over commit or the regular commit. `cd` and
`cdStart` are the countdown value and countdown start reference to commit. -/
def activePlay (height : ℚ) (rands : Nat → ℚ) (s : GameState)
    (timestamp delta : ℚ) (thrusting : Bool)
    (cd cdStart : Option ℚ) (ridx : Nat) : TickResult :=
  let p := getCurrentParams s.distance
  let accel := GRAVITY + (if thrusting then THRUST_ACCEL else 0)
  let nextVelocity := (s.velocity + accel * delta) * (995 / 1000)
  let intendedY := s.ufoY + nextVelocity * delta
  let c := boundClamp height intendedY
  let moved := s.obstacles.map fun o => { o with x := o.x - p.speed * delta }
  let rf := refill height p.gap rands ridx s.nextObstacleId moved
  let sc := scoreStep rf.1 s.score
  let newDistance := s.distance + p.speed * delta
  let hit := if c.2 then true else collides height c.1 sc.1
  if hit then
    { state :=
        { s with
          ufoY := c.1
          velocity := 0
          obstacles := sc.1
          score := sc.2
          distance := newDistance
          countdownStart := cdStart
          lastTime := none
          nextObstacleId := rf.2.1 }
      gameOver := some (sc.2, newDistance)
      ridx := rf.2.2 }
  else
    { state :=
        { s with
          ufoY := c.1
          velocity := nextVelocity
          obstacles := sc.1
          score := sc.2
          distance := newDistance
          countdown := cd
          countdownStart := cdStart
          lastTime := some timestamp
          nextObstacleId := rf.2.1 }
      gameOver := none
      ridx := rf.2.2 }

/-- Variant of `activePlay` following the specification's wording: the
obstacle collision test receives the pre-clamp intended vertical position
and is evaluated unconditionally; everything else is unchanged. -/
def activePlaySpecCollision (height : ℚ) (rands : Nat → ℚ) (s : GameState)
    (timestamp delta : ℚ) (thrusting : Bool)
    (cd cdStart : Option ℚ) (ridx : Nat) : TickResult :=
  let p := getCurrentParams s.distance
  let accel := GRAVITY + (if thrusting then THRUST_ACCEL else 0)
  let nextVelocity := (s.velocity + accel * delta) * (995 / 1000)
  let intendedY := s.ufoY + nextVelocity * delta
  let c := boundClamp height intendedY
  let moved := s.obstacles.map fun o => { o with x := o.x - p.speed * delta }
  let rf := refill height p.gap rands ridx s.nextObstacleId moved
  let sc := scoreStep rf.1 s.score
  let newDistance := s.distance + p.speed * delta
  let hit := c.2 || collides height intendedY sc.1
  if hit then
    { state :=
        { s with
          ufoY := c.1
          velocity := 0
          obstacles := sc.1
          score := sc.2
          distance := newDistance
          countdownStart := cdStart
          lastTime := none
          nextObstacleId := rf.2.1 }
      gameOver := some (sc.2, newDistance)
      ridx := rf.2.2 }
  else
    { state :=
        { s with
          ufoY := c.1
          velocity := nextVelocity
          obstacles := sc.1
          score := sc.2
          distance := newDistance
          countdown := cd
          countdownStart := cdStart
          lastTime := some timestamp
          nextObstacleId := rf.2.1 }
      gameOver := none
      ridx := rf.2.2 }

/-- One frame of the GameCanvas loop while the phase is `running`.
`pow25` is the host's value of `Math.pow 0.25 delta` for this frame. -/
def tick (height : ℚ) (rands : Nat → ℚ) (pow25 : ℚ) (s : GameState)
    (timestamp : ℚ) (isThrusting : Bool) (ridx : Nat) : TickResult :=
  match s.lastTime with
  | none =>
    { state := { s with lastTime := some timestamp }, gameOver := none, ridx := ridx }
  | some last =>
    let rawDelta := (timestamp - last) / 1000
    if rawDelta ≤ 0 then
      { state := s, gameOver := none, ridx := ridx }
    else
      let delta := if MAX_FPS < timestamp - last then min rawDelta (1 / 30) else rawDelta
      match s.countdown with
      | some _ =>
        let start := s.countdownStart.getD timestamp
        let elapsed := (timestamp - start) / 1000
        let remaining := COUNTDOWN_DURATION - elapsed
        if remaining ≤ 0 then
          activePlay height rands s timestamp delta isThrusting none (some start) ridx
        else
          let warmupSpeed : ℚ := 80
          let newDistance := s.distance + warmupSpeed * delta
          let moved := s.obstacles.map fun o => { o with x := o.x - warmupSpeed * delta }
          let rf := refill height (getCurrentParams 0).gap rands ridx s.nextObstacleId moved
          let interp := 1 - pow25
          let floatedY := s.ufoY + (height / 2 - s.ufoY) * interp
          { state :=
              { s with
                ufoY := floatedY
                obstacles := rf.1
                distance := newDistance
                countdown := some remaining
                countdownStart := some start
                lastTime := some timestamp
                nextObstacleId := rf.2.1 }
            gameOver := none
            ridx := rf.2.2 }
      | none =>
        activePlay height rands s timestamp delta isThrusting none s.countdownStart ridx

/-- Physics step exactly as the specification phrases it: damped velocity
update, explicit-Euler position update, then sequential floor and ceiling
clamps with a hit flag. Returns (position, velocity, hit). -/
def specPhysics (y v : ℚ) (thrusting : Bool) (dt floorY ceilingY : ℚ) :
    ℚ × ℚ × Bool :=
  let vNew := (v + (GRAVITY + (if thrusting then THRUST_ACCEL else 0)) * dt) * (995 / 1000)
  let p1 := y + vNew * dt
  let q1 : ℚ × Bool :=
    if floorY ≤ p1 + UFO_RADIUS then (floorY - UFO_RADIUS, true) else (p1, false)
  let q2 : ℚ × Bool :=
    if q1.1 - UFO_RADIUS ≤ ceilingY then (ceilingY + UFO_RADIUS, true) else q1
  (q2.1, vNew, q2.2)

/-- Shell state for the persistence scenario: best score 5 persisted and
loaded. -/
def c1Shell : Shell :=
  { stats := { score := 0, bestScore := 5, distance := 0, runs := 1 }
    storage := some "5" }

/-- An unpassed obstacle whose trailing edge (x + width = 420) lies between
the collision anchor (400) and the scoring threshold (450). -/
def c2obs : Obstacle :=
  { id := 0, x := 340, gapY := 220, gapHeight := 220, width := 80, passed := false }

theorem getDifficultyFactor_nonneg (d : ℚ) : 0 ≤ getDifficultyFactor d := by
  unfold getDifficultyFactor DIFFICULTY_MAX_DISTANCE
  split_ifs with h1 h2
  · exact le_refl 0
  · exact zero_le_one
  · exact div_nonneg (le_of_lt (not_le.mp h1)) (by norm_num)

theorem getDifficultyFactor_mono {d1 d2 : ℚ} (h : d1 ≤ d2) :
    getDifficultyFactor d1 ≤ getDifficultyFactor d2 := by
  unfold getDifficultyFactor DIFFICULTY_MAX_DISTANCE
  split_ifs with h1 h2 h3 h4 h5 h6
  · exact le_refl 0
  · exact zero_le_one
  · exact div_nonneg (by linarith [not_le.mp h2]) (by norm_num)
  · linarith
  · exact le_refl 1
  · rw [le_div_iff₀ (by norm_num : (0:ℚ) < 4500)]
    linarith
  · linarith
  · rw [div_le_one (by norm_num : (0:ℚ) < 4500)]
    linarith
  · gcongr

/-- C5: for distances d1 < d2 inside [0, DIFFICULTY_MAX_DISTANCE] the
derived speed is non-decreasing and the derived gap is non-increasing;
`getCurrentParams` is a pure function of its distance argument, so
determinism is inherent to the embedding. -/
theorem C5_difficulty_monotone (d1 d2 : ℚ) (h0 : 0 ≤ d1) (h12 : d1 < d2)
    (h2 : d2 ≤ DIFFICULTY_MAX_DISTANCE) :
    (getCurrentParams d1).speed ≤ (getCurrentParams d2).speed ∧
    (getCurrentParams d2).gap ≤ (getCurrentParams d1).gap := by
  have hf := getDifficultyFactor_mono (le_of_lt h12)
  have hn := getDifficultyFactor_nonneg d1
  have he : getDifficultyFactor d1 * getDifficultyFactor d1 ≤
      getDifficultyFactor d2 * getDifficultyFactor d2 :=
    mul_self_le_mul_self hn hf
  simp only [getCurrentParams, BASE_SPEED, MAX_SPEED, OBSTACLE_BASE_GAP, OBSTACLE_MIN_GAP]
  constructor
  · nlinarith
  · nlinarith

/-- C5 witness at d1 = 0, d2 = 4500. -/
theorem C5_difficulty_monotone_witness :
    (getCurrentParams 0).speed ≤ (getCurrentParams 4500).speed ∧
    (getCurrentParams 4500).gap ≤ (getCurrentParams 0).gap :=
  C5_difficulty_monotone 0 4500 (by norm_num) (by norm_num)
    (by norm_num [DIFFICULTY_MAX_DISTANCE])

/-- C4 counterexample: with viewportHeight 440, gapHeight 220 (usable range
440 − 160 − 220 = 60 > 0) and random draw 0, the spawned gapY is 190, which
lies outside the claimed interval [80, 440 − 80 − 220] = [80, 140]. -/
theorem C4_counterexample :
    (spawnObstacle 440 0 7 300 220).gapY = 190 ∧
    ¬ (spawnObstacle 440 0 7 300 220).gapY ≤ 440 - 80 - 220 := by
  norm_num [spawnObstacle]

/-- C4 amended: for a random draw r ∈ [0,1] and positive usable range, the
gap's TOP edge gapY − gapHeight/2 (the code's `center` variable) is the
affine image 80 + r·(height − 2·80 − gapHeight) of the uniform draw, hence
uniform in [80, height − 80 − gapHeight]; with a non-positive usable range
the top edge sits at the margin, i.e. gapY = 80 + gapHeight/2. -/
theorem C4_gap_top_edge_range (height r gapHeight : ℚ) (oid : Nat) (minX : ℚ)
    (hr0 : 0 ≤ r) (hr1 : r ≤ 1) :
    (0 < height - 2 * 80 - gapHeight →
      (spawnObstacle height r oid minX gapHeight).gapY - gapHeight / 2 =
          80 + r * (height - 2 * 80 - gapHeight) ∧
      80 ≤ (spawnObstacle height r oid minX gapHeight).gapY - gapHeight / 2 ∧
      (spawnObstacle height r oid minX gapHeight).gapY - gapHeight / 2 ≤
          height - 80 - gapHeight) ∧
    (height - 2 * 80 - gapHeight ≤ 0 →
      (spawnObstacle height r oid minX gapHeight).gapY = 80 + gapHeight / 2) := by
  constructor
  · intro h
    have hru : r * (height - 2 * 80 - gapHeight) ≤ height - 2 * 80 - gapHeight := by
      nlinarith
    have hru0 : 0 ≤ r * (height - 2 * 80 - gapHeight) := by positivity
    refine ⟨?_, ?_, ?_⟩
    · simp only [spawnObstacle, if_pos h]
      ring
    · simp only [spawnObstacle, if_pos h]
      linarith
    · simp only [spawnObstacle, if_pos h]
      linarith
  · intro h
    have h2 : ¬ (0 < height - 2 * 80 - gapHeight) := not_lt.mpr h
    simp only [spawnObstacle, if_neg h2]
    ring

/-- C4 witness at height 440, r = 1/2, gapHeight 220. -/
theorem C4_gap_top_edge_range_witness :
    (0 < (440:ℚ) - 2 * 80 - 220 →
      (spawnObstacle 440 (1/2) 7 300 220).gapY - 220 / 2 =
          80 + (1/2 : ℚ) * (440 - 2 * 80 - 220) ∧
      80 ≤ (spawnObstacle 440 (1/2) 7 300 220).gapY - 220 / 2 ∧
      (spawnObstacle 440 (1/2) 7 300 220).gapY - 220 / 2 ≤ 440 - 80 - 220) ∧
    ((440:ℚ) - 2 * 80 - 220 ≤ 0 →
      (spawnObstacle 440 (1/2) 7 300 220).gapY = 80 + 220 / 2) :=
  C4_gap_top_edge_range 440 (1/2) 220 7 300 (by norm_num) (by norm_num)

/-- C1: evaluating the code on the spec's end-to-end persistence scenario.
With best 5 persisted, a run ending with score 7 raises the in-memory
bestScore to 7 but leaves the persisted `ufo-flappy-best` value at "5";
a later run ending with score 3 also leaves it at "5". handleGameOver
commits stats through a direct setStats call and never reaches the
localStorage write in updateStats, and no caller of updateStats ever
patches bestScore, so start/restart do not write either: the new high
score is never persisted, contradicting the claim and the spec. -/
theorem C1_best_score_never_persisted :
    (handleGameOver c1Shell 7 100).stats.bestScore = 7 ∧
    (handleGameOver c1Shell 7 100).storage = some "5" ∧
    (handleGameOver (handleGameOver c1Shell 7 100) 3 50).storage = some "5" ∧
    (∀ sh : Shell, ∀ sc : Int, ∀ d : ℚ, (handleGameOver sh sc d).storage = sh.storage) ∧
    (∀ sh : Shell, (handleStart sh).storage = sh.storage) ∧
    (∀ sh : Shell, (handleRestart sh).storage = sh.storage) := by
  refine ⟨by decide, by decide, by decide, ?_, ?_, ?_⟩
  · intro sh sc d
    rfl
  · intro sh
    simp [handleStart, updateStats, applyPatch]
  · intro sh
    simp [handleRestart, updateStats, applyPatch]

/-- C10: the initial stats always have score = distance = runs = 0, and
bestScore is the parsed stored value when it parses to a nonzero integer,
and 0 when the stored value is absent or fails to parse (NaN). -/
theorem C10_initial_stats (stored : Option String) :
    (createInitialStats stored).score = 0 ∧
    (createInitialStats stored).distance = 0 ∧
    (createInitialStats stored).runs = 0 ∧
    (stored = none → (createInitialStats stored).bestScore = 0) ∧
    (∀ s, stored = some s → parseIntJS s = none →
      (createInitialStats stored).bestScore = 0) ∧
    (∀ s n, stored = some s → parseIntJS s = some n → n ≠ 0 →
      (createInitialStats stored).bestScore = n) := by
  refine ⟨rfl, rfl, rfl, ?_, ?_, ?_⟩
  · intro h
    subst h
    rfl
  · intro s hs hp
    subst hs
    by_cases he : s = ""
    · simp [createInitialStats, he]
    · simp [createInitialStats, he, hp]
  · intro s n hs hp hn
    subst hs
    have he : s ≠ "" := by
      intro he
      subst he
      simp [show parseIntJS "" = none from rfl] at hp
    simp [createInitialStats, he, hp, hn]

/-- C10 witness at stored values "7", absent, and "zzz". -/
theorem C10_initial_stats_witness :
    (createInitialStats (some "7")).bestScore = 7 ∧
    (createInitialStats none).bestScore = 0 ∧
    (createInitialStats (some "zzz")).bestScore = 0 :=
  ⟨(C10_initial_stats (some "7")).2.2.2.2.2 "7" 7 rfl (by decide) (by decide),
   (C10_initial_stats none).2.2.2.1 rfl,
   (C10_initial_stats (some "zzz")).2.2.2.2.1 "zzz" rfl (by decide)⟩

/-- C2 counterexample: the obstacle `c2obs` has trailing edge
x + width = 420, which has NOT crossed the collision circle's center
ufoX = 960/2 − 80 = 400, yet the scoring pass flips its passed flag and
increments the score: the scoring threshold is not the collision anchor. -/
theorem C2_counterexample :
    (scoreStep [c2obs] 0).1 = [{ c2obs with passed := true }] ∧
    (scoreStep [c2obs] 0).2 = 1 ∧
    ¬ c2obs.x + c2obs.width < ufoX := by
  refine ⟨?_, ?_, ?_⟩
  · simp [scoreStep, c2obs]
    norm_num
  · simp [scoreStep, c2obs]
    norm_num
  · simp [c2obs, ufoX]
    norm_num

/-- C2 amended: during active play the passed flag of an obstacle flips
from false to true, adding exactly 1 to the score, the instant its
trailing edge x + width crosses the fixed threshold 960/2 − 30 = 450 —
which lies 50 units to the RIGHT of the collision circle's center
960/2 − 80 = 400; flags never revert and each obstacle contributes at
most 1. -/
theorem C2_score_threshold (obs : List Obstacle) (score : Nat) :
    (scoreStep obs score).1 =
      obs.map (fun o =>
        if o.passed = false ∧ o.x + o.width < 960 / 2 - 30 then
          { o with passed := true }
        else o) ∧
    (scoreStep obs score).2 =
      score + obs.countP (fun o =>
        decide (o.passed = false ∧ o.x + o.width < 960 / 2 - 30)) := by
  induction obs generalizing score with
  | nil => simp [scoreStep]
  | cons o rest ih =>
    by_cases h : o.passed = false ∧ o.x + o.width < 960 / 2 - 30
    · have h1 := (ih (score + 1)).1
      have h2 := (ih (score + 1)).2
      simp only [scoreStep, if_pos h, List.map_cons, List.countP_cons]
      constructor
      · simp [h1, h]
      · simp only [h2]
        simp [h]
        omega
    · have h1 := (ih score).1
      have h2 := (ih score).2
      simp only [scoreStep, if_neg h, List.map_cons, List.countP_cons]
      constructor
      · simp [h1, h]
      · simp only [h2]
        simp [h]

theorem foldlMax_ge_init (l : List Obstacle) :
    ∀ m : ℚ, m ≤ l.foldl (fun acc p => max acc p.x) m := by
  induction l with
  | nil => intro m; exact le_refl m
  | cons p rest ih =>
    intro m
    exact le_trans (le_max_left m p.x) (ih (max m p.x))

theorem foldlMax_ge_mem (l : List Obstacle) :
    ∀ (m : ℚ) (o : Obstacle), o ∈ l → o.x ≤ l.foldl (fun acc p => max acc p.x) m := by
  induction l with
  | nil => intro m o h; cases h
  | cons p rest ih =>
    intro m o h
    rcases List.mem_cons.mp h with h1 | h2
    · subst h1
      exact le_trans (le_max_right m o.x) (foldlMax_ge_init rest (max m o.x))
    · exact ih (max m p.x) o h2

theorem le_maxX {l : List Obstacle} {o : Obstacle} (h : o ∈ l) : o.x ≤ maxX l := by
  cases l with
  | nil => cases h
  | cons a rest =>
    rcases List.mem_cons.mp h with h1 | h2
    · subst h1
      exact foldlMax_ge_init rest o.x
    · exact foldlMax_ge_mem rest a.x o h2

theorem maxX_append (l : List Obstacle) (b : Obstacle) (h : l ≠ []) :
    maxX (l ++ [b]) = max (maxX l) b.x := by
  cases l with
  | nil => exact absurd rfl h
  | cons a rest =>
    show (rest ++ [b]).foldl (fun acc p => max acc p.x) a.x =
      max (rest.foldl (fun acc p => max acc p.x) a.x) b.x
    rw [List.foldl_append]
    rfl

theorem spawnChain_length (height gap : ℚ) (rands : Nat → ℚ) :
    ∀ (k ridx nextId : Nat) (base : ℚ),
      (spawnChain height gap rands ridx nextId base k).length = k := by
  intro k
  induction k with
  | zero => intro ridx nextId base; rfl
  | succ n ih =>
    intro ridx nextId base
    simp [spawnChain, ih]

theorem spawnChain_mem (height gap : ℚ) (rands : Nat → ℚ) :
    ∀ (k ridx nextId : Nat) (base : ℚ) (o : Obstacle),
      o ∈ spawnChain height gap rands ridx nextId base k →
      ∃ i, i < k ∧
        o = spawnObstacle height (rands (ridx + i)) (nextId + i)
              (base + (i : ℚ) * OBSTACLE_SPACING) gap := by
  intro k
  induction k with
  | zero => intro _ _ _ o h; cases h
  | succ n ih =>
    intro ridx nextId base o h
    rcases List.mem_cons.mp h with h1 | h2
    · refine ⟨0, Nat.succ_pos n, ?_⟩
      simpa using h1
    · rcases ih (ridx + 1) (nextId + 1) (base + OBSTACLE_SPACING) o h2 with ⟨i, hi, he⟩
      refine ⟨i + 1, by omega, ?_⟩
      have ha : ridx + 1 + i = ridx + (i + 1) := by omega
      have hb : nextId + 1 + i = nextId + (i + 1) := by omega
      have hc : base + OBSTACLE_SPACING + (i : ℚ) * OBSTACLE_SPACING =
          base + ((i : ℚ) + 1) * OBSTACLE_SPACING := by ring
      have hd : ((i + 1 : ℕ) : ℚ) = (i : ℚ) + 1 := by push_cast; ring
      rw [he, ha, hb, hc, hd]

theorem baseOf_ne_nil {l : List Obstacle} (h : l.length ≠ 0) :
    baseOf l = maxX l + OBSTACLE_SPACING := by
  unfold baseOf
  rw [if_neg h]

theorem refillLoop_eq (height gap : ℚ) (rands : Nat → ℚ) :
    ∀ (fuel ridx nextId : Nat) (active : List Obstacle),
      refillLoop height gap rands fuel ridx nextId active =
        (active ++ spawnChain height gap rands ridx nextId (baseOf active)
            (min fuel (needed - active.length)),
          nextId + min fuel (needed - active.length),
          ridx + min fuel (needed - active.length)) := by
  intro fuel
  induction fuel with
  | zero =>
    intro ridx nextId active
    simp [refillLoop, spawnChain]
  | succ n ih =>
    intro ridx nextId active
    by_cases h : active.length < needed
    · have hb : baseOf (active ++
          [spawnObstacle height (rands ridx) nextId (baseOf active) gap]) =
          baseOf active + OBSTACLE_SPACING := by
        by_cases he : active = []
        · subst he
          simp [baseOf, maxX, spawnObstacle]
        · have hmax := maxX_append active
            (spawnObstacle height (rands ridx) nextId (baseOf active) gap) he
          have hlen3 : (active ++
              [spawnObstacle height (rands ridx) nextId (baseOf active) gap]).length ≠ 0 := by
            simp
          have hlen2 : active.length ≠ 0 := by
            simpa using List.length_pos.mpr he |>.ne'
          have hba : baseOf active = maxX active + OBSTACLE_SPACING := baseOf_ne_nil hlen2
          have hax : (spawnObstacle height (rands ridx) nextId (baseOf active) gap).x =
              baseOf active := rfl
          have hsp : (0:ℚ) ≤ OBSTACLE_SPACING := by norm_num [OBSTACLE_SPACING]
          have hle : maxX active ≤ maxX active + OBSTACLE_SPACING := by linarith
          rw [baseOf_ne_nil hlen3, hmax, hax, hba, max_eq_right hle]
      have hk : min (n + 1) (needed - active.length) =
          min n (needed - (active.length + 1)) + 1 := by omega
      simp only [refillLoop, if_pos h]
      rw [ih]
      simp only [List.length_append, List.length_cons, List.length_nil, Nat.zero_add]
      rw [hb, hk]
      simp only [Prod.mk.injEq]
      refine ⟨?_, by omega, by omega⟩
      simp [spawnChain, List.append_assoc]
    · have h0 : needed - active.length = 0 := by omega
      simp [refillLoop, if_neg h, h0, spawnChain]

theorem refill_eq (height gap : ℚ) (rands : Nat → ℚ) (ridx nextId : Nat)
    (obs : List Obstacle) :
    refill height gap rands ridx nextId obs =
      ((obs.filter fun o => -60 < o.x + o.width) ++
          spawnChain height gap rands ridx nextId
            (baseOf (obs.filter fun o => -60 < o.x + o.width))
            (needed - (obs.filter fun o => -60 < o.x + o.width).length),
        nextId + (needed - (obs.filter fun o => -60 < o.x + o.width).length),
        ridx + (needed - (obs.filter fun o => -60 < o.x + o.width).length)) := by
  have hm : min needed (needed - (obs.filter fun o => -60 < o.x + o.width).length) =
      needed - (obs.filter fun o => -60 < o.x + o.width).length := by omega
  rw [refill, refillLoop_eq, hm]

/-- C6: after any refill, the active list holds at least
ceil(960/spacing) + 3 = 7 obstacles, every obstacle satisfies
x + width ≥ −60, the result is exactly the culled survivors followed by the
spawn chain, and each newly spawned obstacle is the spawn at
maxX(existing) + spacing (respectively at the fixed offset 480 when none
remain) with passed = false and the next sequential identifier. -/
theorem C6_refill_invariant (height gap : ℚ) (rands : Nat → ℚ) (ridx nextId : Nat)
    (obs : List Obstacle) (hw : ∀ o ∈ obs, o.width = OBSTACLE_WIDTH) :
    needed ≤ (refill height gap rands ridx nextId obs).1.length ∧
    (∀ o ∈ (refill height gap rands ridx nextId obs).1, -60 ≤ o.x + o.width) ∧
    (refill height gap rands ridx nextId obs).1 =
      (obs.filter fun o => -60 < o.x + o.width) ++
        spawnChain height gap rands ridx nextId
          (baseOf (obs.filter fun o => -60 < o.x + o.width))
          (needed - (obs.filter fun o => -60 < o.x + o.width).length) ∧
    (∀ o ∈ spawnChain height gap rands ridx nextId
          (baseOf (obs.filter fun o => -60 < o.x + o.width))
          (needed - (obs.filter fun o => -60 < o.x + o.width).length),
        ∃ i, i < needed - (obs.filter fun o => -60 < o.x + o.width).length ∧
          o = spawnObstacle height (rands (ridx + i)) (nextId + i)
                (baseOf (obs.filter fun o => -60 < o.x + o.width) +
                  (i : ℚ) * OBSTACLE_SPACING) gap ∧
          o.passed = false ∧ o.id = nextId + i ∧
          o.x = baseOf (obs.filter fun o => -60 < o.x + o.width) +
            (i : ℚ) * OBSTACLE_SPACING) := by
  have hfst : (refill height gap rands ridx nextId obs).1 =
      (obs.filter fun o => -60 < o.x + o.width) ++
        spawnChain height gap rands ridx nextId
          (baseOf (obs.filter fun o => -60 < o.x + o.width))
          (needed - (obs.filter fun o => -60 < o.x + o.width).length) := by
    rw [refill_eq]
  have hbase : (120 : ℚ) < baseOf (obs.filter fun o => -60 < o.x + o.width) := by
    by_cases he : (obs.filter fun o => -60 < o.x + o.width) = []
    · rw [he]
      norm_num [baseOf]
    · rcases List.exists_mem_of_ne_nil _ he with ⟨m, hm⟩
      have hmx := le_maxX hm
      have hmo := List.mem_filter.mp hm
      have hmw : m.width = OBSTACLE_WIDTH := hw m hmo.1
      have hmb : (-60 : ℚ) < m.x + m.width := by
        have := hmo.2
        simpa using this
      have hlen2 : (obs.filter fun o => -60 < o.x + o.width).length ≠ 0 := by
        simpa using List.length_pos.mpr he |>.ne'
      rw [baseOf_ne_nil hlen2]
      have hOW : OBSTACLE_WIDTH = (80:ℚ) := rfl
      have hOS : OBSTACLE_SPACING = (260:ℚ) := rfl
      rw [hOS]
      rw [hmw, hOW] at hmb
      linarith
  have hchain : ∀ o ∈ spawnChain height gap rands ridx nextId
      (baseOf (obs.filter fun o => -60 < o.x + o.width))
      (needed - (obs.filter fun o => -60 < o.x + o.width).length),
      ∃ i, i < needed - (obs.filter fun o => -60 < o.x + o.width).length ∧
        o = spawnObstacle height (rands (ridx + i)) (nextId + i)
              (baseOf (obs.filter fun o => -60 < o.x + o.width) +
                (i : ℚ) * OBSTACLE_SPACING) gap ∧
        o.passed = false ∧ o.id = nextId + i ∧
        o.x = baseOf (obs.filter fun o => -60 < o.x + o.width) +
          (i : ℚ) * OBSTACLE_SPACING := by
    intro o ho
    rcases spawnChain_mem height gap rands _ _ _ _ o ho with ⟨i, hi, he⟩
    exact ⟨i, hi, he, by rw [he]; rfl, by rw [he]; rfl, by rw [he]; rfl⟩
  refine ⟨?_, ?_, hfst, hchain⟩
  · rw [hfst, List.length_append, spawnChain_length]
    omega
  · intro o ho
    rw [hfst] at ho
    rcases List.mem_append.mp ho with h1 | h2
    · have := (List.mem_filter.mp h1).2
      have hlt : (-60 : ℚ) < o.x + o.width := by simpa using this
      linarith
    · rcases hchain o h2 with ⟨i, hi, he, hp, hid, hx⟩
      have hwid : o.width = OBSTACLE_WIDTH := by rw [he]; rfl
      have hnn : (0 : ℚ) ≤ (i : ℚ) * OBSTACLE_SPACING := by
        have h1 : (0:ℚ) ≤ (i : ℚ) := by positivity
        have h2 : (0:ℚ) ≤ OBSTACLE_SPACING := by norm_num [OBSTACLE_SPACING]
        exact mul_nonneg h1 h2
      have hOW : OBSTACLE_WIDTH = (80:ℚ) := rfl
      rw [hx, hwid, hOW]
      linarith

/-- C6 witness: refill starting from the empty obstacle list. -/
theorem C6_refill_invariant_witness :
    needed ≤ (refill 440 220 (fun _ => 0) 0 0 []).1.length ∧
    (∀ o ∈ (refill 440 220 (fun _ => 0) 0 0 []).1, -60 ≤ o.x + o.width) ∧
    (refill 440 220 (fun _ => 0) 0 0 []).1 =
      (List.filter (fun o => -60 < o.x + o.width) []) ++
        spawnChain 440 220 (fun _ => 0) 0 0
          (baseOf (List.filter (fun o => -60 < o.x + o.width) []))
          (needed - (List.filter (fun o => -60 < o.x + o.width) ([] : List Obstacle)).length) ∧
    (∀ o ∈ spawnChain 440 220 (fun _ => 0) 0 0
          (baseOf (List.filter (fun o => -60 < o.x + o.width) []))
          (needed - (List.filter (fun o => -60 < o.x + o.width) ([] : List Obstacle)).length),
        ∃ i, i < needed - (List.filter (fun o => -60 < o.x + o.width) ([] : List Obstacle)).length ∧
          o = spawnObstacle 440 ((fun _ => (0:ℚ)) (0 + i)) (0 + i)
                (baseOf (List.filter (fun o => -60 < o.x + o.width) []) +
                  (i : ℚ) * OBSTACLE_SPACING) 220 ∧
          o.passed = false ∧ o.id = 0 + i ∧
          o.x = baseOf (List.filter (fun o => -60 < o.x + o.width) []) +
            (i : ℚ) * OBSTACLE_SPACING) :=
  C6_refill_invariant 440 220 (fun _ => 0) 0 0 [] (by intro o ho; cases ho)

theorem boundClamp_snd_false (height y : ℚ) (h : (boundClamp height y).2 = false) :
    (boundClamp height y).1 = y := by
  simp only [boundClamp] at h ⊢
  split_ifs at h ⊢ <;> simp_all

theorem hit_bool_eq (height y : ℚ) (obs : List Obstacle) :
    (if (boundClamp height y).2 then true else collides height (boundClamp height y).1 obs) =
      ((boundClamp height y).2 || collides height y obs) := by
  by_cases hb : (boundClamp height y).2 = true
  · simp [hb]
  · have hf : (boundClamp height y).2 = false := by simpa using hb
    have h1 : (boundClamp height y).1 = y := boundClamp_snd_false height y hf
    simp [hf, h1]

/-- C3: the tick's collision outcome coincides, frame for frame, with the
specification's description (collision run on the pre-clamp intended
position): when no bound was hit the clamp leaves the position unchanged so
both tests see the same value, and when a bound was hit the frame ends in
game-over under both policies. -/
theorem C3_collision_preclamp_equiv (height : ℚ) (rands : Nat → ℚ) (s : GameState)
    (timestamp delta : ℚ) (thrusting : Bool) (cd cdStart : Option ℚ) (ridx : Nat) :
    activePlay height rands s timestamp delta thrusting cd cdStart ridx =
      activePlaySpecCollision height rands s timestamp delta thrusting cd cdStart ridx := by
  simp only [activePlay, activePlaySpecCollision]
  rw [hit_bool_eq]

/-- C7: a frame whose computed elapsed time is zero or negative is a
complete no-op: the tick returns the state unchanged, emits no game-over
and consumes no randomness. -/
theorem C7_degenerate_dt_noop (height : ℚ) (rands : Nat → ℚ) (pow25 : ℚ)
    (s : GameState) (timestamp : ℚ) (isThrusting : Bool) (ridx : Nat)
    (last : ℚ) (hl : s.lastTime = some last)
    (hd : (timestamp - last) / 1000 ≤ 0) :
    tick height rands pow25 s timestamp isThrusting ridx =
      { state := s, gameOver := none, ridx := ridx } := by
  unfold tick
  rw [hl]
  simp [hd]

/-- State for the C7 witness: mid-run state with a recorded last frame
time. -/
def c7State : GameState :=
  { ufoY := 220, velocity := 35, obstacles := [c2obs], score := 4, distance := 900
    countdown := none, countdownStart := none, lastTime := some 100, nextObstacleId := 3 }

/-- C7 witness: timestamp equal to the last frame time gives dt = 0. -/
theorem C7_degenerate_dt_noop_witness :
    tick 440 (fun _ => 0) (1/2) c7State 100 true 5 =
      { state := c7State, gameOver := none, ridx := 5 } :=
  C7_degenerate_dt_noop 440 (fun _ => 0) (1/2) c7State 100 true 5 100 rfl (by norm_num)

/-- C8: while the countdown is active (remaining time positive), the frame
never emits game-over — collision and bound-hit detection are not reached —
and the thrust input is ignored: the tick result is the same whether or not
thrust is held. -/
theorem C8_countdown_no_gameover (height : ℚ) (rands : Nat → ℚ) (pow25 : ℚ)
    (s : GameState) (timestamp : ℚ) (isThrusting : Bool) (ridx : Nat)
    (last c : ℚ) (hl : s.lastTime = some last)
    (hd : ¬ (timestamp - last) / 1000 ≤ 0)
    (hc : s.countdown = some c)
    (hr : ¬ COUNTDOWN_DURATION - (timestamp - s.countdownStart.getD timestamp) / 1000 ≤ 0) :
    (tick height rands pow25 s timestamp isThrusting ridx).gameOver = none ∧
    tick height rands pow25 s timestamp true ridx =
      tick height rands pow25 s timestamp false ridx := by
  constructor
  · unfold tick
    rw [hl, hc]
    simp [hd, hr]
  · unfold tick
    rw [hl, hc]
    simp [hd, hr]

/-- State for the C8 witness: countdown armed at 3 seconds, not yet
started, one frame recorded. -/
def c8State : GameState :=
  { ufoY := 10, velocity := -500, obstacles := [c2obs], score := 0, distance := 0
    countdown := some 3, countdownStart := none, lastTime := some 0, nextObstacleId := 1 }

/-- C8 witness: 10 ms into the countdown, with thrust held, no game-over
is emitted and thrust has no effect. -/
theorem C8_countdown_no_gameover_witness :
    (tick 440 (fun _ => 0) (1/2) c8State 10 true 0).gameOver = none ∧
    tick 440 (fun _ => 0) (1/2) c8State 10 true 0 =
      tick 440 (fun _ => 0) (1/2) c8State 10 false 0 :=
  C8_countdown_no_gameover 440 (fun _ => 0) (1/2) c8State 10 true 0 0 3 rfl
    (by norm_num) rfl
    (by show ¬ COUNTDOWN_DURATION - ((10:ℚ) - (Option.getD none 10)) / 1000 ≤ 0
        norm_num [COUNTDOWN_DURATION])

theorem ite_ufoY (p : Prop) [Decidable p] (r1 r2 : TickResult) (x : ℚ)
    (h1 : r1.state.ufoY = x) (h2 : r2.state.ufoY = x) :
    (if p then r1 else r2).state.ufoY = x := by
  by_cases h : p
  · simpa [h] using h1
  · simpa [h] using h2

theorem ite_velocity (p : Prop) [Decidable p] (r1 r2 : TickResult) (v : ℚ)
    (h1 : r1.gameOver = none → r1.state.velocity = v)
    (h2 : r2.gameOver = none → r2.state.velocity = v) :
    (if p then r1 else r2).gameOver = none → (if p then r1 else r2).state.velocity = v := by
  by_cases h : p
  · simpa [h] using h1
  · simpa [h] using h2

theorem specPhysics_eq_clamp (y v : ℚ) (th : Bool) (dt height : ℚ) :
    specPhysics y v th dt (height - 40) 40 =
      ((boundClamp height
          (y + (v + (GRAVITY + (if th then THRUST_ACCEL else 0)) * dt) * (995 / 1000) * dt)).1,
        (v + (GRAVITY + (if th then THRUST_ACCEL else 0)) * dt) * (995 / 1000),
        (boundClamp height
          (y + (v + (GRAVITY + (if th then THRUST_ACCEL else 0)) * dt) * (995 / 1000) * dt)).2) :=
  rfl

/-- C9: every active-play frame commits the vertical position produced by
the claim's physics step (damped velocity, Euler position, sequential
floor/ceiling clamp); when the frame does not end the run the committed
velocity is the damped velocity, and a set clamp hit flag forces the frame
to end the run. -/
theorem C9_physics_step (height : ℚ) (rands : Nat → ℚ) (s : GameState)
    (timestamp delta : ℚ) (thrusting : Bool) (cd cdStart : Option ℚ) (ridx : Nat) :
    (activePlay height rands s timestamp delta thrusting cd cdStart ridx).state.ufoY =
      (specPhysics s.ufoY s.velocity thrusting delta (height - 40) 40).1 ∧
    ((activePlay height rands s timestamp delta thrusting cd cdStart ridx).gameOver = none →
      (activePlay height rands s timestamp delta thrusting cd cdStart ridx).state.velocity =
        (specPhysics s.ufoY s.velocity thrusting delta (height - 40) 40).2.1) ∧
    ((specPhysics s.ufoY s.velocity thrusting delta (height - 40) 40).2.2 = true →
      (activePlay height rands s timestamp delta thrusting cd cdStart ridx).gameOver ≠ none) := by
  rw [specPhysics_eq_clamp]
  refine ⟨?_, ?_, ?_⟩
  · simp only [activePlay]
    exact ite_ufoY _ _ _ _ rfl rfl
  · simp only [activePlay]
    refine ite_velocity _ _ _ _ ?_ ?_
    · intro h
      exact absurd h (by simp)
    · intro _
      rfl
  · intro h
    have h2 : (boundClamp height
        (s.ufoY + (s.velocity + (GRAVITY + (if thrusting then THRUST_ACCEL else 0)) * delta) *
          (995 / 1000) * delta)).2 = true := h
    simp only [activePlay]
    rw [h2]
    simp

/-- State for the C9 witness: craft centered, at rest, empty pipeline. -/
def c9State : GameState :=
  { ufoY := 220, velocity := 0, obstacles := [], score := 0, distance := 0
    countdown := none, countdownStart := none, lastTime := some 0, nextObstacleId := 0 }

/-- C9 witness at a 10 ms frame without thrust. -/
theorem C9_physics_step_witness :
    (activePlay 440 (fun _ => 0) c9State 10 (1 / 100) false none none 0).state.ufoY =
      (specPhysics c9State.ufoY c9State.velocity false (1 / 100) (440 - 40) 40).1 ∧
    ((activePlay 440 (fun _ => 0) c9State 10 (1 / 100) false none none 0).gameOver = none →
      (activePlay 440 (fun _ => 0) c9State 10 (1 / 100) false none none 0).state.velocity =
        (specPhysics c9State.ufoY c9State.velocity false (1 / 100) (440 - 40) 40).2.1) ∧
    ((specPhysics c9State.ufoY c9State.velocity false (1 / 100) (440 - 40) 40).2.2 = true →
      (activePlay 440 (fun _ => 0) c9State 10 (1 / 100) false none none 0).gameOver ≠ none) :=
  C9_physics_step 440 (fun _ => 0) c9State 10 (1 / 100) false none none 0

end UFO
